import Mathlib

/-!
Verification of `compare_versions.py` (the VersionGate CI helper).

The script reads two environment variables (`GITHUB_OUTPUT`,
`GITHUB_STEP_SUMMARY`), takes two positional arguments `tag` and
`cargo_version`, normalizes the tag with `tag.lstrip("v")`, compares the
normalized tag with the reference version lexicographically, and appends
records and summary lines to the two sink files.

The embedding below mirrors the Python source line by line: `lstripV` is
`str.lstrip("v")`, `listLt` is Python's code-point lexicographic string
ordering, `pyMain` is `main(tag, cargo_version)` returning the appended
output lines, the appended summary lines and the process exit code, and
`runScript` is the whole process including the module-level environment
check and the `__main__` argument-count check.
-/

namespace CompareVersions

/-- Python `s.lstrip("v")`: removes every leading character equal to `v`
(all of them, not just the first). -/
def lstripV (s : String) : String :=
  String.mk (s.toList.dropWhile (fun c => c == 'v'))

/-- Python lexicographic (code-point) ordering on character sequences:
`listLt a b` is `a < b` for Python strings viewed as char lists. -/
def listLt : List Char → List Char → Bool
  | _, [] => false
  | [], _ :: _ => true
  | a :: as, b :: bs =>
    if a.toNat < b.toNat then true
    else if b.toNat < a.toNat then false
    else listLt as bs

/-- Python `a < b` on strings. -/
def pyStrLt (a b : String) : Bool := listLt a.toList b.toList

/-- Python `a > b` on strings. -/
def pyStrGt (a b : String) : Bool := pyStrLt b a

/-- The usage message printed by the `__main__` block on a wrong argument
count. -/
def usageMsg : String := "Usage: compare_versions.py <tag> <cargo_version>"

/-- The summary message written in the tag-ahead hard-stop branch (the two
adjacent Python string literals concatenated). -/
def aheadMsg : String :=
  "Tag is ahead of Cargo version. Please update Cargo.toml. And recreate the tag."

/-- The result of running `main(tag, cargo_version)`: the lines appended to
the output sink (`GITHUB_OUTPUT`), the lines appended to the summary sink
(`GITHUB_STEP_SUMMARY`), and the process exit code. -/
structure MainResult where
  outputLines : List String
  summaryLines : List String
  exitCode : Nat
deriving DecidableEq

/-- The body of `main(tag, cargo_version)`. The tag is normalized with
`lstrip("v")`, two heading lines are written to the summary sink, then the
three-way branch on the lexicographic comparison runs: hard stop with exit
code 1 when the normalized tag is greater, otherwise a `release_needed`
record followed by the `tag` and `cargo_version` records, and exit code 0. -/
def pyMain (tag0 cargoVersion : String) : MainResult :=
  let tag := lstripV tag0
  let header := ["## Tag: " ++ tag, "## Cargo Version: " ++ cargoVersion]
  if pyStrGt tag cargoVersion then
    { outputLines := []
      summaryLines := header ++ [aheadMsg]
      exitCode := 1 }
  else if tag = cargoVersion then
    { outputLines :=
        ["release_needed=false", "tag=" ++ tag, "cargo_version=" ++ cargoVersion]
      summaryLines := header ++ ["No release needed."]
      exitCode := 0 }
  else
    { outputLines :=
        ["release_needed=true", "tag=" ++ tag, "cargo_version=" ++ cargoVersion]
      summaryLines := header ++ ["Release needed."]
      exitCode := 0 }

/-- The environment the process starts in: the values of `GITHUB_OUTPUT`
and `GITHUB_STEP_SUMMARY` (`none` when the variable is unset). -/
structure Env where
  githubOutput : Option String
  githubStepSummary : Option String
deriving DecidableEq

/-- Python truthiness of `os.getenv(name)`: the variable is set and
non-empty. -/
def envSet : Option String → Bool
  | none => false
  | some s => s != ""

/-- Both required environment variables are set and non-empty. -/
def envConfigured (e : Env) : Bool :=
  envSet e.githubOutput && envSet e.githubStepSummary

/-- The observable result of the whole process: exit code, lines printed to
standard output, lines printed to standard error, and the lines appended to
the two sink files. -/
structure ProcResult where
  exitCode : Nat
  stdoutLines : List String
  stderrLines : List String
  outputLines : List String
  summaryLines : List String
deriving DecidableEq

/-- The whole script run with environment `env` and positional arguments
`args` (that is, `sys.argv[1:]`). The module-level code checks
`GITHUB_OUTPUT` then `GITHUB_STEP_SUMMARY` and raises `EnvironmentError`
(an uncaught exception: exit code 1, traceback on standard error, nothing
written to the sinks) when one is unset or empty; then the `__main__` block
checks `len(sys.argv) != 3` and prints the usage message to standard output
and exits 1 on a wrong argument count; otherwise it calls `main`. -/
def runScript (env : Env) (args : List String) : ProcResult :=
  if envSet env.githubOutput = false then
    { exitCode := 1
      stdoutLines := []
      stderrLines := ["OSError: GITHUB_OUTPUT environment variable is not set"]
      outputLines := []
      summaryLines := [] }
  else if envSet env.githubStepSummary = false then
    { exitCode := 1
      stdoutLines := []
      stderrLines := ["OSError: GITHUB_STEP_SUMMARY environment variable is not set"]
      outputLines := []
      summaryLines := [] }
  else
    match args with
    | [tag, cargoVersion] =>
      let m := pyMain tag cargoVersion
      { exitCode := m.exitCode
        stdoutLines := []
        stderrLines := []
        outputLines := m.outputLines
        summaryLines := m.summaryLines }
    | _ =>
      { exitCode := 1
        stdoutLines := [usageMsg]
        stderrLines := []
        outputLines := []
        summaryLines := [] }

lemma listLt_self (l : List Char) : listLt l l = false := by
  induction l with
  | nil => rfl
  | cons a as ih => simp [listLt, ih]

lemma listLt_asymm (a b : List Char) (h : listLt a b = true) : listLt b a = false := by
  induction a generalizing b with
  | nil =>
    cases b with
    | nil => rfl
    | cons x xs => rfl
  | cons x xs ih =>
    cases b with
    | nil => simp [listLt] at h
    | cons y ys =>
      by_cases hxy : x.toNat < y.toNat
      · have hyx : ¬ y.toNat < x.toNat := by omega
        simp [listLt, hxy, hyx]
      · by_cases hyx : y.toNat < x.toNat
        · simp [listLt, hxy, hyx] at h
        · simp [listLt, hxy, hyx] at h ⊢
          exact ih ys h

lemma listLt_ne (a b : List Char) (h : listLt a b = true) : a ≠ b := by
  intro he
  subst he
  rw [listLt_self] at h
  exact Bool.false_ne_true h

lemma lstripV_toList (s : String) :
    (lstripV s).toList = s.toList.dropWhile (fun c => c == 'v') := rfl

lemma pyStrLt_ne (a b : String) (h : pyStrLt a b = true) : a ≠ b := by
  intro he
  exact listLt_ne a.toList b.toList h (congrArg String.toList he)

lemma pyStrLt_not_gt (a b : String) (h : pyStrLt a b = true) : pyStrGt a b = false :=
  listLt_asymm a.toList b.toList h

lemma pyStrGt_self (a : String) : pyStrGt a a = false := listLt_self a.toList

/-- Branch characterization: the tag-ahead hard stop. -/
lemma pyMain_gt (tag cv : String) (h : pyStrGt (lstripV tag) cv = true) :
    pyMain tag cv =
      { outputLines := []
        summaryLines := ["## Tag: " ++ lstripV tag, "## Cargo Version: " ++ cv, aheadMsg]
        exitCode := 1 } := by
  simp [pyMain, h]

/-- Branch characterization: the equal case. -/
lemma pyMain_eq_case (tag cv : String) (h : lstripV tag = cv) :
    pyMain tag cv =
      { outputLines :=
          ["release_needed=false", "tag=" ++ lstripV tag, "cargo_version=" ++ cv]
        summaryLines :=
          ["## Tag: " ++ lstripV tag, "## Cargo Version: " ++ cv, "No release needed."]
        exitCode := 0 } := by
  simp [pyMain, h, pyStrGt_self]

/-- Branch characterization: the final `else` (not greater and not equal). -/
lemma pyMain_else (tag cv : String) (hgt : pyStrGt (lstripV tag) cv = false)
    (hne : lstripV tag ≠ cv) :
    pyMain tag cv =
      { outputLines :=
          ["release_needed=true", "tag=" ++ lstripV tag, "cargo_version=" ++ cv]
        summaryLines :=
          ["## Tag: " ++ lstripV tag, "## Cargo Version: " ++ cv, "Release needed."]
        exitCode := 0 } := by
  simp [pyMain, hgt, hne]

/-- Branch characterization: the tag-behind case. -/
lemma pyMain_lt (tag cv : String) (h : pyStrLt (lstripV tag) cv = true) :
    pyMain tag cv =
      { outputLines :=
          ["release_needed=true", "tag=" ++ lstripV tag, "cargo_version=" ++ cv]
        summaryLines :=
          ["## Tag: " ++ lstripV tag, "## Cargo Version: " ++ cv, "Release needed."]
        exitCode := 0 } :=
  pyMain_else tag cv (pyStrLt_not_gt _ _ h) (pyStrLt_ne _ _ h)

/-- With both environment variables configured and exactly two arguments,
the process result is the result of `main`. -/
lemma runScript_two (env : Env) (tag cv : String) (h : envConfigured env = true) :
    runScript env [tag, cv] =
      { exitCode := (pyMain tag cv).exitCode
        stdoutLines := []
        stderrLines := []
        outputLines := (pyMain tag cv).outputLines
        summaryLines := (pyMain tag cv).summaryLines } := by
  unfold envConfigured at h
  rw [Bool.and_eq_true] at h
  obtain ⟨h1, h2⟩ := h
  simp [runScript, h1, h2]

/-- The environment-check failure path, shared by several claims. -/
lemma runScript_env_missing (env : Env) (args : List String)
    (h : envConfigured env = false) :
    (runScript env args).exitCode = 1 ∧
    (runScript env args).stdoutLines = [] ∧
    (runScript env args).outputLines = [] ∧
    (runScript env args).summaryLines = [] ∧
    (runScript env args).stderrLines ≠ [] := by
  by_cases h1 : envSet env.githubOutput = false
  · simp [runScript, h1]
  · have h1' : envSet env.githubOutput = true := by
      cases hb : envSet env.githubOutput
      · exact absurd hb h1
      · rfl
    have h2 : envSet env.githubStepSummary = false := by
      unfold envConfigured at h
      rw [h1'] at h
      simpa using h
    simp [runScript, h1', h2]

lemma takeWhile_v_replicate (l : List Char) :
    l.takeWhile (fun c => c == 'v') =
      List.replicate (l.takeWhile (fun c => c == 'v')).length 'v' := by
  induction l with
  | nil => rfl
  | cons a as ih =>
    by_cases h : a = 'v'
    · subst h
      simp only [List.takeWhile_cons, beq_self_eq_true, if_true, List.length_cons,
        List.replicate_succ]
      exact congrArg _ ih
    · simp [List.takeWhile_cons, h]

lemma head_dropWhile_not_v (l : List Char) :
    (l.dropWhile (fun c => c == 'v')).head? ≠ some 'v' := by
  induction l with
  | nil => simp
  | cons a as ih =>
    by_cases h : a = 'v'
    · subst h
      simpa [List.dropWhile_cons] using ih
    · simp [List.dropWhile_cons, h]

lemma listLt_nil_right (l : List Char) : listLt l [] = false := by
  cases l with
  | nil => rfl
  | cons a as => rfl

lemma lstripV_all_v (n : Nat) : lstripV (String.mk (List.replicate n 'v')) = "" := by
  have hd : (List.replicate n 'v').dropWhile (fun c => c == 'v') = [] := by
    induction n with
    | zero => rfl
    | succ k ih => simp [List.replicate_succ, List.dropWhile_cons]
  unfold lstripV
  have ht : (String.mk (List.replicate n 'v')).toList = List.replicate n 'v' := rfl
  rw [ht, hd]

example : lstripV "v1.2.3" = "1.2.3" := by decide
example : lstripV "vv1.2.3" = "1.2.3" := by decide
example : lstripV "1.2.3" = "1.2.3" := by decide
example : pyStrGt "1.2.4" "1.2.3" = true := by decide
example : pyStrGt "9.0.0" "10.0.0" = true := by decide
example : (pyMain "v1.2.3" "1.2.3").outputLines =
    ["release_needed=false", "tag=1.2.3", "cargo_version=1.2.3"] := by decide

/-- C1 counterexample: the claim says a tag starting with two or more `v`
characters has exactly one removed, so that normalizing the tag
`"vv1.2.3"` yields `"v1.2.3"`. The code uses `lstrip("v")`, which removes
them all: normalizing `"vv1.2.3"` yields `"1.2.3"`, not `"v1.2.3"`. -/
theorem c1_counterexample :
    lstripV "vv1.2.3" = "1.2.3" ∧ lstripV "vv1.2.3" ≠ "v1.2.3" := by
  decide

/-- C1, amended: normalization removes every leading `v` character, not at
most one. For every tag, the original character list is a block of `v`
characters followed by the normalized tag, and the normalized tag never
starts with `v`. -/
theorem c1_norm_strips_all_leading_v (t : String) :
    (∃ k, t.toList = List.replicate k 'v' ++ (lstripV t).toList) ∧
    (lstripV t).toList.head? ≠ some 'v' := by
  constructor
  · refine ⟨(t.toList.takeWhile (fun c => c == 'v')).length, ?_⟩
    rw [lstripV_toList, ← takeWhile_v_replicate, List.takeWhile_append_dropWhile]
  · rw [lstripV_toList]
    exact head_dropWhile_not_v t.toList

/-- C1 witness: the amended statement evaluated at the tag `"vv1.2.3"`. -/
theorem c1_witness :
    (∃ k, ("vv1.2.3" : String).toList =
        List.replicate k 'v' ++ (lstripV "vv1.2.3").toList) ∧
    (lstripV "vv1.2.3").toList.head? ≠ some 'v' :=
  c1_norm_strips_all_leading_v "vv1.2.3"

/-- C2: with the environment configured, when the normalized tag is
lexicographically greater than the reference version the process writes
the tag-ahead summary line and exits with status 1, and no output records
at all are written to the output sink. -/
theorem c2_tag_ahead_hard_stop (env : Env) (tag cv : String)
    (henv : envConfigured env = true)
    (h : pyStrGt (lstripV tag) cv = true) :
    (runScript env [tag, cv]).exitCode = 1 ∧
    (runScript env [tag, cv]).outputLines = [] ∧
    aheadMsg ∈ (runScript env [tag, cv]).summaryLines := by
  rw [runScript_two env tag cv henv, pyMain_gt tag cv h]
  simp

/-- C2 witness: the hard stop at tag `"v1.2.4"` against version `"1.2.3"`. -/
theorem c2_witness :
    (runScript ⟨some "out.txt", some "sum.txt"⟩ ["v1.2.4", "1.2.3"]).exitCode = 1 ∧
    (runScript ⟨some "out.txt", some "sum.txt"⟩ ["v1.2.4", "1.2.3"]).outputLines = [] ∧
    aheadMsg ∈ (runScript ⟨some "out.txt", some "sum.txt"⟩
      ["v1.2.4", "1.2.3"]).summaryLines :=
  c2_tag_ahead_hard_stop ⟨some "out.txt", some "sum.txt"⟩ "v1.2.4" "1.2.3"
    (by decide) (by decide)

/-- C3: with the environment configured, when the normalized tag equals the
reference version the output sink receives `release_needed=false`, the
summary sink receives the no-release line, and the process exits with
status 0. -/
theorem c3_equal_no_release (env : Env) (tag cv : String)
    (henv : envConfigured env = true)
    (h : lstripV tag = cv) :
    "release_needed=false" ∈ (runScript env [tag, cv]).outputLines ∧
    "No release needed." ∈ (runScript env [tag, cv]).summaryLines ∧
    (runScript env [tag, cv]).exitCode = 0 := by
  rw [runScript_two env tag cv henv, pyMain_eq_case tag cv h]
  simp

/-- C3 witness: the equal case at tag `"v1.2.3"` against version `"1.2.3"`. -/
theorem c3_witness :
    "release_needed=false" ∈ (runScript ⟨some "out.txt", some "sum.txt"⟩
      ["v1.2.3", "1.2.3"]).outputLines ∧
    "No release needed." ∈ (runScript ⟨some "out.txt", some "sum.txt"⟩
      ["v1.2.3", "1.2.3"]).summaryLines ∧
    (runScript ⟨some "out.txt", some "sum.txt"⟩ ["v1.2.3", "1.2.3"]).exitCode = 0 :=
  c3_equal_no_release ⟨some "out.txt", some "sum.txt"⟩ "v1.2.3" "1.2.3"
    (by decide) (by decide)

/-- C4: with the environment configured, when the normalized tag is
lexicographically less than the reference version the output sink receives
`release_needed=true`, the summary sink receives the release-needed line,
and the process exits with status 0. -/
theorem c4_behind_release_needed (env : Env) (tag cv : String)
    (henv : envConfigured env = true)
    (h : pyStrLt (lstripV tag) cv = true) :
    "release_needed=true" ∈ (runScript env [tag, cv]).outputLines ∧
    "Release needed." ∈ (runScript env [tag, cv]).summaryLines ∧
    (runScript env [tag, cv]).exitCode = 0 := by
  rw [runScript_two env tag cv henv, pyMain_lt tag cv h]
  simp

/-- C4 witness: the behind case at tag `"v1.2.2"` against version `"1.2.3"`. -/
theorem c4_witness :
    "release_needed=true" ∈ (runScript ⟨some "out.txt", some "sum.txt"⟩
      ["v1.2.2", "1.2.3"]).outputLines ∧
    "Release needed." ∈ (runScript ⟨some "out.txt", some "sum.txt"⟩
      ["v1.2.2", "1.2.3"]).summaryLines ∧
    (runScript ⟨some "out.txt", some "sum.txt"⟩ ["v1.2.2", "1.2.3"]).exitCode = 0 :=
  c4_behind_release_needed ⟨some "out.txt", some "sum.txt"⟩ "v1.2.2" "1.2.3"
    (by decide) (by decide)

/-- C5 counterexample: the claim says a wrong argument count always prints
the usage message to standard output, regardless of the environment
variables. With both variables unset and zero arguments, the module-level
environment check fails first: the process exits 1 with nothing on
standard output, so no usage message is printed. -/
theorem c5_counterexample :
    ([] : List String).length ≠ 2 ∧
    (runScript { githubOutput := none, githubStepSummary := none } []).exitCode = 1 ∧
    usageMsg ∉ (runScript { githubOutput := none, githubStepSummary := none }
      []).stdoutLines := by
  decide

/-- C5, amended: a wrong argument count always exits with status 1, and the
usage message reaches standard output exactly when both environment
variables are set and non-empty — when either is missing or empty, the
module-level environment check fails first and no usage message is
printed. -/
theorem c5_wrong_argc (env : Env) (args : List String) (h : args.length ≠ 2) :
    (runScript env args).exitCode = 1 ∧
    ((runScript env args).stdoutLines = [usageMsg] ↔ envConfigured env = true) := by
  by_cases hc : envConfigured env = true
  · have hc0 := hc
    unfold envConfigured at hc
    rw [Bool.and_eq_true] at hc
    obtain ⟨h1, h2⟩ := hc
    rcases args with _ | ⟨a, _ | ⟨b, _ | ⟨c, rest⟩⟩⟩
    · exact ⟨by simp [runScript, h1, h2],
        iff_of_true (by simp [runScript, h1, h2]) hc0⟩
    · exact ⟨by simp [runScript, h1, h2],
        iff_of_true (by simp [runScript, h1, h2]) hc0⟩
    · exact absurd rfl h
    · exact ⟨by simp [runScript, h1, h2],
        iff_of_true (by simp [runScript, h1, h2]) hc0⟩
  · have hc' : envConfigured env = false := by
      cases hb : envConfigured env
      · rfl
      · exact absurd hb hc
    obtain ⟨he, hstd, -, -, -⟩ := runScript_env_missing env args hc'
    refine ⟨he, iff_of_false ?_ hc⟩
    rw [hstd]
    simp

/-- C5 witness: the amended statement with the environment configured and
three arguments. -/
theorem c5_witness :
    (runScript ⟨some "out.txt", some "sum.txt"⟩ ["a", "b", "c"]).exitCode = 1 ∧
    ((runScript ⟨some "out.txt", some "sum.txt"⟩ ["a", "b", "c"]).stdoutLines =
        [usageMsg] ↔ envConfigured ⟨some "out.txt", some "sum.txt"⟩ = true) :=
  c5_wrong_argc ⟨some "out.txt", some "sum.txt"⟩ ["a", "b", "c"] (by decide)

/-- C6: when either environment variable is unset or empty the process
exits with status 1 carrying a descriptive error message, regardless of the
arguments, and nothing is written to either sink. -/
theorem c6_missing_env_fatal (env : Env) (args : List String)
    (h : envConfigured env = false) :
    (runScript env args).exitCode = 1 ∧
    (runScript env args).outputLines = [] ∧
    (runScript env args).summaryLines = [] ∧
    (runScript env args).stderrLines ≠ [] := by
  obtain ⟨he, _, ho, hs, herr⟩ := runScript_env_missing env args h
  exact ⟨he, ho, hs, herr⟩

/-- C6 witness: `GITHUB_OUTPUT` set but `GITHUB_STEP_SUMMARY` empty, with
otherwise valid arguments. -/
theorem c6_witness :
    (runScript ⟨some "out.txt", some ""⟩ ["v1.2.3", "1.2.3"]).exitCode = 1 ∧
    (runScript ⟨some "out.txt", some ""⟩ ["v1.2.3", "1.2.3"]).outputLines = [] ∧
    (runScript ⟨some "out.txt", some ""⟩ ["v1.2.3", "1.2.3"]).summaryLines = [] ∧
    (runScript ⟨some "out.txt", some ""⟩ ["v1.2.3", "1.2.3"]).stderrLines ≠ [] :=
  c6_missing_env_fatal ⟨some "out.txt", some ""⟩ ["v1.2.3", "1.2.3"] (by decide)

/-- C7: in both non-hard-stop branches the output sink receives exactly the
`release_needed` record followed by `tag=<normalized tag>` and
`cargo_version=<reference version>`, each its own record. -/
theorem c7_trailing_records (env : Env) (tag cv : String)
    (henv : envConfigured env = true)
    (h : pyStrGt (lstripV tag) cv = false) :
    ∃ rn, (runScript env [tag, cv]).outputLines =
        [rn, "tag=" ++ lstripV tag, "cargo_version=" ++ cv] ∧
      (rn = "release_needed=false" ∨ rn = "release_needed=true") := by
  rw [runScript_two env tag cv henv]
  by_cases he : lstripV tag = cv
  · rw [pyMain_eq_case tag cv he]
    exact ⟨"release_needed=false", rfl, Or.inl rfl⟩
  · rw [pyMain_else tag cv h he]
    exact ⟨"release_needed=true", rfl, Or.inr rfl⟩

/-- C7 witness: the trailing records at tag `"v1.2.2"` against version
`"1.2.3"`. -/
theorem c7_witness :
    ∃ rn, (runScript ⟨some "out.txt", some "sum.txt"⟩
        ["v1.2.2", "1.2.3"]).outputLines =
        [rn, "tag=" ++ lstripV "v1.2.2", "cargo_version=" ++ "1.2.3"] ∧
      (rn = "release_needed=false" ∨ rn = "release_needed=true") :=
  c7_trailing_records ⟨some "out.txt", some "sum.txt"⟩ "v1.2.2" "1.2.3"
    (by decide) (by decide)

/-- C8: for every valid invocation the first two summary lines, written
before the branch decision and hence present in all three branches, are the
Markdown headings naming the normalized tag and the reference version. -/
theorem c8_header_lines (env : Env) (tag cv : String)
    (henv : envConfigured env = true) :
    (runScript env [tag, cv]).summaryLines.take 2 =
      ["## Tag: " ++ lstripV tag, "## Cargo Version: " ++ cv] := by
  rw [runScript_two env tag cv henv]
  by_cases hgt : pyStrGt (lstripV tag) cv = true
  · rw [pyMain_gt tag cv hgt]
    rfl
  · have hgt' : pyStrGt (lstripV tag) cv = false := by
      cases hb : pyStrGt (lstripV tag) cv
      · rfl
      · exact absurd hb hgt
    by_cases he : lstripV tag = cv
    · rw [pyMain_eq_case tag cv he]
      rfl
    · rw [pyMain_else tag cv hgt' he]
      rfl

/-- C8 witness: the heading lines at tag `"v1.2.4"` against version
`"1.2.3"`, an invocation that takes the hard stop. -/
theorem c8_witness :
    (runScript ⟨some "out.txt", some "sum.txt"⟩
      ["v1.2.4", "1.2.3"]).summaryLines.take 2 =
      ["## Tag: " ++ lstripV "v1.2.4", "## Cargo Version: " ++ "1.2.3"] :=
  c8_header_lines ⟨some "out.txt", some "sum.txt"⟩ "v1.2.4" "1.2.3" (by decide)

/-- C9: tag normalization is idempotent: stripping the leading `v`
characters of an already-stripped tag changes nothing. -/
theorem c9_normalization_idempotent (t : String) :
    lstripV (lstripV t) = lstripV t :=
  congrArg String.mk
    (List.dropWhile_idempotent (fun c => c == 'v') t.toList)

/-- C10: a tag consisting solely of `v` characters normalizes to the empty
string, and against any non-empty reference version the invocation never
takes the hard stop: it writes `release_needed=true` and exits 0. -/
theorem c10_all_v_tag (env : Env) (n : Nat) (cv : String)
    (henv : envConfigured env = true) (h : cv ≠ "") :
    lstripV (String.mk (List.replicate n 'v')) = "" ∧
    (runScript env [String.mk (List.replicate n 'v'), cv]).exitCode = 0 ∧
    "release_needed=true" ∈
      (runScript env [String.mk (List.replicate n 'v'), cv]).outputLines := by
  have hgt : pyStrGt (lstripV (String.mk (List.replicate n 'v'))) cv = false := by
    rw [lstripV_all_v]
    exact listLt_nil_right cv.toList
  have hne : lstripV (String.mk (List.replicate n 'v')) ≠ cv := by
    rw [lstripV_all_v]
    exact Ne.symm h
  refine ⟨lstripV_all_v n, ?_, ?_⟩
  · rw [runScript_two _ _ _ henv, pyMain_else _ _ hgt hne]
  · rw [runScript_two _ _ _ henv, pyMain_else _ _ hgt hne]
    simp

/-- C10 witness: the single-character tag `"v"` against version `"1.0"`. -/
theorem c10_witness :
    lstripV (String.mk (List.replicate 1 'v')) = "" ∧
    (runScript ⟨some "out.txt", some "sum.txt"⟩
      [String.mk (List.replicate 1 'v'), "1.0"]).exitCode = 0 ∧
    "release_needed=true" ∈ (runScript ⟨some "out.txt", some "sum.txt"⟩
      [String.mk (List.replicate 1 'v'), "1.0"]).outputLines :=
  c10_all_v_tag ⟨some "out.txt", some "sum.txt"⟩ 1 "1.0" (by decide) (by decide)

end CompareVersions
